import Mathlib

/-!
Verification of the `ProjectFeed` page component of CollabSphere
(`src/pages/ProjectFeed.tsx`), shallowly embedded in Lean 4.

The component has three responsibilities, each embedded below:
* the view filter `filteredProjects` (lines 80–95 of the source);
* the project loader `fetchProjects` / `handleSearch` (lines 53–78, 97–99),
  modelled as a state transformer over the component state, with the
  document store abstracted as a function from queries to outcomes;
* the identity resolver, the `useEffect` at lines 34–47 whose inner
  function is `fetchCollege`, modelled as a function from the profile
  store, the session identity and the previous `userCollege` value to the
  new `userCollege` value.

Text values are Lean `String`s; JavaScript `null`/`undefined` for a text
value is `Option.none`; JavaScript truthiness of a nullable string (used
by `showMyCollege && userCollege` and by `... || null`) is the `truthy`
and `jsOrNull` functions below.  `toLowerCase` is modelled per-character
with `Char.toLower` and `String.prototype.includes` with `listIncludes`.
-/

namespace ProjectFeed

/-- The `Project` interface of the source (lines 10–23). -/
structure Project where
  id : String
  title : String
  description : String
  skills : List String
  teamSize : String
  duration : String
  isWomenLed : Bool
  creatorName : String
  creatorId : String
  college : String
  createdAt : String
  applicants : Nat
deriving DecidableEq, Repr

/-- The `filter` state: `'all' | 'women'` (line 29). -/
inductive Filter where
  | all
  | women
deriving DecidableEq, Repr

/-- `filter === 'women'` as a Boolean test. -/
def filterIsWomen : Filter → Bool
  | Filter.women => true
  | Filter.all => false

/-- JavaScript truthiness of a `string | null` value: `null` and the empty
string are falsy, every other string is truthy. -/
def truthy : Option String → Bool
  | none => false
  | some s => !(s == "")

/-- `needle` is a prefix of `haystack`, on character lists. -/
def startsWithCL : List Char → List Char → Bool
  | [], _ => true
  | _ :: _, [] => false
  | n :: ns, h :: hs => n == h && startsWithCL ns hs

/-- `haystack.includes(needle)` on character lists: some suffix of
`haystack` starts with `needle`.  The empty needle is found everywhere,
as in JavaScript. -/
def listIncludes : List Char → List Char → Bool
  | [], needle => needle.isEmpty
  | c :: rest, needle => startsWithCL needle (c :: rest) || listIncludes rest needle

/-- `String.prototype.toLowerCase`, modelled per character. -/
def lowerStr (s : String) : String :=
  String.mk (s.data.map Char.toLower)

/-- `a.includes(b)` on strings. -/
def jsIncludes (a b : String) : Bool :=
  listIncludes a.data b.data

/-- `project.college === userCollege` where `userCollege : string | null`:
strict equality, false against `null`. -/
def strictEq (college : String) (userCollege : Option String) : Bool :=
  match userCollege with
  | none => false
  | some c => college == c

/-- The predicate of the `projects.filter` call at lines 80–95: the four
precedence rules of the view filter, in source order. -/
def visiblePred (searchTerm : String) (filter : Filter) (showMyCollege : Bool)
    (userCollege : Option String) (project : Project) : Bool :=
  if showMyCollege && truthy userCollege && filterIsWomen filter then
    strictEq project.college userCollege && project.isWomenLed
  else if showMyCollege && truthy userCollege then
    strictEq project.college userCollege
  else if filterIsWomen filter then
    project.isWomenLed
  else
    jsIncludes (lowerStr project.title) (lowerStr searchTerm) ||
    jsIncludes (lowerStr project.description) (lowerStr searchTerm) ||
    project.skills.any (fun skill => jsIncludes (lowerStr skill) (lowerStr searchTerm))

/-- `filteredProjects` (lines 80–95): the view filter, a pure derivation
from the loaded list and the four pieces of filter state. -/
def filteredProjects (projects : List Project) (searchTerm : String) (filter : Filter)
    (showMyCollege : Bool) (userCollege : Option String) : List Project :=
  projects.filter (visiblePred searchTerm filter showMyCollege userCollege)

/-- `x || null` for an optional (possibly missing) string field: a missing
or empty-string field becomes `null`. -/
def jsOrNull : Option String → Option String
  | none => none
  | some c => if c = "" then none else some c

/-- A profile document's field data, as far as this component reads it:
the `college` field, which may be absent. -/
structure ProfileRecord where
  college : Option String
deriving DecidableEq, Repr

/-- The identity-resolver effect (lines 34–47).  `store` is the `profiles`
collection keyed by user id; `currentUser` the session identity; `prev`
the `userCollege` value before the effect runs.  Returns the `userCollege`
value after the effect (and, when present, the profile fetch) completes.
Note the source only calls `setUserCollege` when `profileSnap.exists()`,
so a missing record leaves the previous value in place. -/
def fetchCollege (store : String → Option ProfileRecord) (currentUser : Option String)
    (prev : Option String) : Option String :=
  match currentUser with
  | none => none
  | some uid =>
    match store uid with
    | none => prev
    | some record => jsOrNull record.college

/-- A `where('isWomenLed', '==', true)`-style equality constraint. -/
inductive WhereClause where
  | whereEq (field : String) (value : Bool)
deriving DecidableEq, Repr

/-- A query against a named collection with a list of equality
constraints. -/
structure Query where
  col : String
  constraints : List WhereClause
deriving DecidableEq, Repr

/-- The query construction of `fetchProjects` (lines 56–63): the
`projects` collection, with the `isWomenLed == true` constraint pushed
exactly when `filter === 'women'`. -/
def buildQuery (filter : Filter) : Query :=
  { col := "projects"
    constraints :=
      if filterIsWomen filter then [WhereClause.whereEq "isWomenLed" true] else [] }

/-- A stored document's field data.  The store does not reserve the `id`
key, so the data may or may not itself carry an `id` field; the other
fields are the `Project` fields the component reads. -/
structure DocData where
  id : Option String
  title : String
  description : String
  skills : List String
  teamSize : String
  duration : String
  isWomenLed : Bool
  creatorName : String
  creatorId : String
  college : String
  createdAt : String
  applicants : Nat
deriving DecidableEq, Repr

/-- A fetched document: the store-assigned id and the field data. -/
structure Doc where
  id : String
  data : DocData
deriving DecidableEq, Repr

/-- `{ id: doc.id, ...doc.data() }` (lines 66–69): a JavaScript object
literal in which the spread of the field data comes after `id: doc.id`,
so an `id` key carried by the field data overwrites the store-assigned
identifier; the store-assigned identifier survives exactly when the
field data has no `id` key. -/
def mkProject (d : Doc) : Project :=
  { id :=
      match d.data.id with
      | some dataId => dataId
      | none => d.id
    title := d.data.title
    description := d.data.description
    skills := d.data.skills
    teamSize := d.data.teamSize
    duration := d.data.duration
    isWomenLed := d.data.isWomenLed
    creatorName := d.data.creatorName
    creatorId := d.data.creatorId
    college := d.data.college
    createdAt := d.data.createdAt
    applicants := d.data.applicants }

/-- Outcome of `getDocs`: a snapshot of documents, or a thrown error. -/
inductive QueryOutcome where
  | ok (docs : List Doc)
  | err
deriving Repr

/-- A transient toast notification (`toastStore.addToast`). -/
structure Toast where
  message : String
  severity : String
deriving DecidableEq, Repr

/-- The component state touched by `fetchProjects`: the in-memory project
list, the loading flag, and the emitted notifications. -/
structure FeedState where
  projects : List Project
  loading : Bool
  toasts : List Toast
deriving Repr

/-- `fetchProjects` (lines 53–78) as a state transformer, also returning
the query it issued.  `server` abstracts `getDocs`.  The `try` block sets
`loading` true, builds and runs the query and replaces `projects` on
success; the `catch` block emits one error toast; the `finally` block
clears `loading` on both paths. -/
def fetchProjectsRun (server : Query → QueryOutcome) (filter : Filter)
    (s : FeedState) : FeedState × Query :=
  let s1 : FeedState := { s with loading := true }
  let q := buildQuery filter
  match server q with
  | QueryOutcome.ok docs =>
    ({ s1 with projects := docs.map mkProject, loading := false }, q)
  | QueryOutcome.err =>
    ({ s1 with
        toasts := s1.toasts ++ [{ message := "Failed to load projects", severity := "error" }],
        loading := false }, q)

/-- The resulting state of a `fetchProjects()` call. -/
def fetchProjects (server : Query → QueryOutcome) (filter : Filter)
    (s : FeedState) : FeedState :=
  (fetchProjectsRun server filter s).1

/-- `handleSearch` (lines 97–99): the Search button handler.  It closes
over the current `searchTerm` (passed here as the unused `_searchTerm`
argument) and its body is exactly `fetchProjects()`. -/
def handleSearch (server : Query → QueryOutcome) (filter : Filter)
    (_searchTerm : String) (s : FeedState) : FeedState × Query :=
  fetchProjectsRun server filter s

/-! Sample data used by the concrete witnesses below. -/

/-- A sample project with the given id, title, college and women-led flag,
all other fields defaulted. -/
def mkSample (id title college : String) (w : Bool) : Project :=
  { id := id, title := title, description := "", skills := [], teamSize := "",
    duration := "", isWomenLed := w, creatorName := "", creatorId := "",
    college := college, createdAt := "", applicants := 0 }

/-- Sample: a non-women-led project at college `X`. -/
def sampleProjectA : Project := mkSample "1" "App" "X" false

/-- Sample: a women-led project at college `Y`. -/
def sampleProjectB : Project := mkSample "2" "Bot" "Y" true

/-- Sample project list. -/
def sampleProjects : List Project := [sampleProjectA, sampleProjectB]

/-- Sample component state. -/
def sampleState : FeedState :=
  { projects := sampleProjects, loading := false, toasts := [] }

/-- A server on which every query fails. -/
def errServer : Query → QueryOutcome := fun _ => QueryOutcome.err

/-- A sample fetched document whose field data carries no `id` key, the
ordinary shape of a stored project document. -/
def sampleDoc : Doc :=
  { id := "docId"
    data := { id := none, title := "Ml", description := "", skills := [], teamSize := "",
              duration := "", isWomenLed := true, creatorName := "", creatorId := "",
              college := "Z", createdAt := "", applicants := 0 } }

/-- A server on which every query returns the one-document snapshot
`[sampleDoc]`. -/
def okOneServer : Query → QueryOutcome := fun _ => QueryOutcome.ok [sampleDoc]

/-- A profile store on which every id resolves to a record with college
`Eng`. -/
def engStore : String → Option ProfileRecord :=
  fun _ => some { college := some "Eng" }

/-- A profile store on which every id resolves to a record whose college
field is the empty string. -/
def emptyCollegeStore : String → Option ProfileRecord :=
  fun _ => some { college := some "" }

/-- A profile store with no records. -/
def noStore : String → Option ProfileRecord := fun _ => none

/-- Pointwise agreement of two filter predicates on a list gives equal
filters. -/
theorem filter_ext {α : Type} {p q : α → Bool} :
    ∀ (l : List α), (∀ x ∈ l, p x = q x) → l.filter p = l.filter q :=
  fun _ h => List.filter_congr h

/-- A haystack always includes the empty needle. -/
theorem listIncludes_nil (l : List Char) : listIncludes l [] = true := by
  cases l <;> simp [listIncludes, startsWithCL, List.isEmpty]

/-- `toLowerCase` of the empty string is the empty string. -/
theorem lowerStr_empty : lowerStr "" = "" := rfl

/-- A string always includes the empty string. -/
theorem jsIncludes_empty (s : String) : jsIncludes s "" = true :=
  listIncludes_nil s.data

/-- The identity resolver never produces a present-but-empty college: if
the previous value is not `some ""`, neither is the new one.  This makes
"resolvedCollege is present" and "resolvedCollege is truthy" coincide on
every reachable component state. -/
theorem fetchCollege_ne_some_empty (store : String → Option ProfileRecord)
    (user : Option String) (prev : Option String) (h : prev ≠ some "") :
    fetchCollege store user prev ≠ some "" := by
  cases user with
  | none => simp [fetchCollege]
  | some uid =>
    cases hs : store uid with
    | none => simpa [fetchCollege, hs] using h
    | some r =>
      cases hc : r.college with
      | none => simp [fetchCollege, hs, jsOrNull, hc]
      | some c =>
        by_cases hce : c = "" <;> simp [fetchCollege, hs, jsOrNull, hc, hce]

/-- C1: with the My College toggle on, a present (non-empty) resolved
college and a filter selection other than WOMEN_LED, the view filter
keeps exactly the projects of that college; the search term and the
filter selection play no part in the result (rule 2 shadows rule 4). -/
theorem c1_myCollege_shadows_search (projects : List Project) (searchTerm : String)
    (filter : Filter) (c : String) (hc : c ≠ "") (hf : filter ≠ Filter.women) :
    filteredProjects projects searchTerm filter true (some c) =
      projects.filter (fun p => p.college == c) := by
  cases filter with
  | women => exact absurd rfl hf
  | all =>
    apply filter_ext
    intro p _
    simp [visiblePred, truthy, filterIsWomen, strictEq, hc]

/-- C1 witness: college `X` projects are kept under a search term `zzz`
that matches nothing. -/
theorem c1_witness :
    ("X" : String) ≠ "" ∧ Filter.all ≠ Filter.women ∧
      filteredProjects sampleProjects "zzz" Filter.all true (some "X") =
        sampleProjects.filter (fun p => p.college == "X") :=
  ⟨by decide, by decide,
    c1_myCollege_shadows_search sampleProjects "zzz" Filter.all "X" (by decide) (by decide)⟩

/-- C4: with the My College toggle on, a present (non-empty) resolved
college and filter selection WOMEN_LED, the view filter keeps exactly the
women-led projects of that college, for every search term. -/
theorem c4_myCollege_womenLed (projects : List Project) (searchTerm : String)
    (c : String) (hc : c ≠ "") :
    filteredProjects projects searchTerm Filter.women true (some c) =
      projects.filter (fun p => p.college == c && p.isWomenLed) := by
  apply filter_ext
  intro p _
  simp [visiblePred, truthy, filterIsWomen, strictEq, hc]

/-- C4 witness at a concrete project list and college. -/
theorem c4_witness :
    ("Y" : String) ≠ "" ∧
      filteredProjects sampleProjects "ig" Filter.women true (some "Y") =
        sampleProjects.filter (fun p => p.college == "Y" && p.isWomenLed) :=
  ⟨by decide, c4_myCollege_womenLed sampleProjects "ig" "Y" (by decide)⟩

/-- C5: with filter selection WOMEN_LED and the My College toggle off (or
no resolved college), the view filter is exactly the order-preserving
subsequence of women-led projects, for every search term. -/
theorem c5_womenLed_subsequence (projects : List Project) (searchTerm : String)
    (showMyCollege : Bool) (userCollege : Option String)
    (h : showMyCollege = false ∨ userCollege = none) :
    filteredProjects projects searchTerm Filter.women showMyCollege userCollege =
        projects.filter (fun p => p.isWomenLed) ∧
      List.Sublist
        (filteredProjects projects searchTerm Filter.women showMyCollege userCollege)
        projects ∧
      ∀ p, p ∈ filteredProjects projects searchTerm Filter.women showMyCollege userCollege ↔
        p ∈ projects ∧ p.isWomenLed = true := by
  have heq : filteredProjects projects searchTerm Filter.women showMyCollege userCollege =
      projects.filter (fun p => p.isWomenLed) := by
    apply filter_ext
    intro p _
    cases h with
    | inl h => simp [visiblePred, truthy, filterIsWomen, h]
    | inr h => simp [visiblePred, truthy, filterIsWomen, h]
  refine ⟨heq, ?_, ?_⟩
  · rw [heq]; exact List.filter_sublist projects
  · intro p
    rw [heq, List.mem_filter]

/-- C5 witness: toggle off, arbitrary resolved college. -/
theorem c5_witness :
    (false = false ∨ (some "X" : Option String) = none) ∧
      filteredProjects sampleProjects "zzz" Filter.women false (some "X") =
        sampleProjects.filter (fun p => p.isWomenLed) :=
  ⟨Or.inl rfl,
    (c5_womenLed_subsequence sampleProjects "zzz" false (some "X") (Or.inl rfl)).1⟩

/-- C6: with an empty search term, filter selection ALL and the toggle
off, every project is visible (the empty string is a substring of every
title), for every resolved-college value. -/
theorem c6_empty_search_identity (projects : List Project) (userCollege : Option String) :
    filteredProjects projects "" Filter.all false userCollege = projects := by
  have h : filteredProjects projects "" Filter.all false userCollege =
      projects.filter (fun _ => true) := by
    apply filter_ext
    intro p _
    simp [visiblePred, truthy, filterIsWomen, lowerStr_empty, jsIncludes_empty]
  rw [h]
  exact List.filter_true projects

/-- C7: with the toggle on but no resolved college, the view filter
behaves exactly as with the toggle off: evaluation falls through to
rules 3 and 4 for every search term, filter selection and
resolved-college value on the toggle-off side. -/
theorem c7_toggle_without_college (projects : List Project) (searchTerm : String)
    (filter : Filter) (userCollege : Option String) :
    filteredProjects projects searchTerm filter true none =
      filteredProjects projects searchTerm filter false userCollege := by
  apply filter_ext
  intro p _
  simp [visiblePred, truthy]

/-- C3: `fetchProjects` clears the loading flag on every exit path, and
when the fetch fails it leaves the project list unchanged and appends
exactly one error toast reading "Failed to load projects". -/
theorem c3_error_handling (server : Query → QueryOutcome) (filter : Filter)
    (s : FeedState) :
    (fetchProjects server filter s).loading = false ∧
      (server (buildQuery filter) = QueryOutcome.err →
        (fetchProjects server filter s).projects = s.projects ∧
        (fetchProjects server filter s).toasts =
          s.toasts ++ [{ message := "Failed to load projects", severity := "error" }]) := by
  cases h : server (buildQuery filter) with
  | ok docs => simp [fetchProjects, fetchProjectsRun, h]
  | err => simp [fetchProjects, fetchProjectsRun, h]

/-- C3 witness on a failing server and a concrete non-empty state. -/
theorem c3_witness :
    errServer (buildQuery Filter.all) = QueryOutcome.err ∧
      (fetchProjects errServer Filter.all sampleState).loading = false ∧
      (fetchProjects errServer Filter.all sampleState).projects = sampleState.projects ∧
      (fetchProjects errServer Filter.all sampleState).toasts =
        sampleState.toasts ++ [{ message := "Failed to load projects", severity := "error" }] :=
  have h := c3_error_handling errServer Filter.all sampleState
  ⟨rfl, h.1, (h.2 rfl).1, (h.2 rfl).2⟩

/-- C8: the loader queries the `projects` collection with exactly one
equality constraint `isWomenLed == true` when the selection is WOMEN_LED
and with no constraint when it is ALL; on success it replaces the whole
in-memory list with the fetched documents, each built by the literal
`{ id: doc.id, ...doc.data() }` — the field data merged over the
store-assigned id, so the store-assigned id tags the entry exactly when
the field data carries no `id` key (the spread comes last and would
otherwise overwrite it). -/
theorem c8_query_and_replace :
    (buildQuery Filter.women).constraints = [WhereClause.whereEq "isWomenLed" true] ∧
      (buildQuery Filter.all).constraints = [] ∧
      (∀ filter, (buildQuery filter).col = "projects") ∧
      (∀ d, (mkProject d).title = d.data.title ∧ (mkProject d).college = d.data.college ∧
        (mkProject d).isWomenLed = d.data.isWomenLed ∧
        (d.data.id = none → (mkProject d).id = d.id) ∧
        (∀ dataId, d.data.id = some dataId → (mkProject d).id = dataId)) ∧
      ∀ (server : Query → QueryOutcome) (filter : Filter) (s : FeedState) docs,
        server (buildQuery filter) = QueryOutcome.ok docs →
          (fetchProjects server filter s).projects = docs.map mkProject := by
  refine ⟨rfl, rfl, fun filter => rfl,
    fun d => ⟨rfl, rfl, rfl, ?_, ?_⟩, ?_⟩
  · intro h; simp [mkProject, h]
  · intro dataId h; simp [mkProject, h]
  · intro server filter s docs h
    simp [fetchProjects, fetchProjectsRun, h]

/-- C8 witness: a one-document snapshot, whose field data has no `id`
key, replaces the sample list, and the entry is tagged with the
store-assigned id. -/
theorem c8_witness :
    okOneServer (buildQuery Filter.women) = QueryOutcome.ok [sampleDoc] ∧
      sampleDoc.data.id = none ∧
      (mkProject sampleDoc).id = sampleDoc.id ∧
      (fetchProjects okOneServer Filter.women sampleState).projects =
        [sampleDoc].map mkProject :=
  ⟨rfl, rfl, (c8_query_and_replace.2.2.2.1 sampleDoc).2.2.2.1 rfl,
    c8_query_and_replace.2.2.2.2 okOneServer Filter.women sampleState [sampleDoc] rfl⟩

/-- C9: the Search action is observationally equivalent to a reload: for
every search term it produces the same resulting state as
`fetchProjects`, and the request it issues to the server is exactly the
one a reload issues — the search term never reaches the server. -/
theorem c9_search_is_reload (server : Query → QueryOutcome) (filter : Filter)
    (searchTerm : String) (s : FeedState) :
    handleSearch server filter searchTerm s = fetchProjectsRun server filter s ∧
      (handleSearch server filter searchTerm s).1 = fetchProjects server filter s ∧
      (handleSearch server filter searchTerm s).2 = buildQuery filter := by
  refine ⟨rfl, rfl, ?_⟩
  cases h : server (buildQuery filter) with
  | ok docs => simp [handleSearch, fetchProjectsRun, h]
  | err => simp [handleSearch, fetchProjectsRun, h]

/-- C2 counterexample: the claim says the resolved college becomes absent
when the profile record does not exist, for every prior value; but with
prior value `some "X"`, a present identity and an empty store, the code
leaves the resolved college at `some "X"`, not absent. -/
theorem c2_counterexample :
    ¬ (fetchCollege noStore (some "u") (some "X") = none) := by
  decide

/-- C2 (amended): the resolved college is absent whenever the session
identity is absent; when the identity is present and its profile record
exists, it equals the record's college field if that field is a
non-empty string and is absent otherwise; when the record does not
exist, it retains its prior value. -/
theorem c2_resolver_cases (store : String → Option ProfileRecord)
    (user : Option String) (prev : Option String) :
    (user = none → fetchCollege store user prev = none) ∧
      (∀ uid, user = some uid → store uid = none →
        fetchCollege store user prev = prev) ∧
      (∀ uid r c, user = some uid → store uid = some r → r.college = some c → c ≠ "" →
        fetchCollege store user prev = some c) ∧
      (∀ uid r, user = some uid → store uid = some r →
        (r.college = none ∨ r.college = some "") →
        fetchCollege store user prev = none) := by
  refine ⟨?_, ?_, ?_, ?_⟩
  · intro h; simp [fetchCollege, h]
  · intro uid hu hs; simp [fetchCollege, hu, hs]
  · intro uid r c hu hs hc hce; simp [fetchCollege, hu, hs, jsOrNull, hc, hce]
  · intro uid r hu hs hc
    cases hc with
    | inl hc => simp [fetchCollege, hu, hs, jsOrNull, hc]
    | inr hc => simp [fetchCollege, hu, hs, jsOrNull, hc]

/-- C2 witness: a present identity whose record has college `Eng`
resolves to `Eng`, for any prior value. -/
theorem c2_witness :
    (some "u" : Option String) = some "u" ∧ engStore "u" = some { college := some "Eng" } ∧
      ({ college := some "Eng" } : ProfileRecord).college = some "Eng" ∧
      ("Eng" : String) ≠ "" ∧
      fetchCollege engStore (some "u") none = some "Eng" :=
  ⟨rfl, rfl, rfl, by decide,
    (c2_resolver_cases engStore (some "u") none).2.2.1 "u" { college := some "Eng" } "Eng"
      rfl rfl rfl (by decide)⟩

/-- C10: when the profile record exists, the resolved college is the
record's college field if it is truthy and absent otherwise — so an
empty-string college is indistinguishable from a missing college field:
the result is the same as against a store whose record lacks the field. -/
theorem c10_falsy_college_absent (store : String → Option ProfileRecord)
    (uid : String) (prev : Option String) (r : ProfileRecord)
    (h : store uid = some r) :
    (∀ c, r.college = some c → c ≠ "" →
        fetchCollege store (some uid) prev = some c) ∧
      (r.college = some "" → fetchCollege store (some uid) prev = none) ∧
      (r.college = none → fetchCollege store (some uid) prev = none) ∧
      (r.college = some "" →
        fetchCollege store (some uid) prev =
          fetchCollege (fun _ => some { college := none }) (some uid) prev) := by
  refine ⟨?_, ?_, ?_, ?_⟩
  · intro c hc hce; simp [fetchCollege, h, jsOrNull, hc, hce]
  · intro hc; simp [fetchCollege, h, jsOrNull, hc]
  · intro hc; simp [fetchCollege, h, jsOrNull, hc]
  · intro hc; simp [fetchCollege, h, jsOrNull, hc]

/-- C10 witness: an existing record with an empty-string college resolves
to absent even with a non-absent prior value. -/
theorem c10_witness :
    emptyCollegeStore "u" = some { college := some "" } ∧
      ({ college := some "" } : ProfileRecord).college = some "" ∧
      fetchCollege emptyCollegeStore (some "u") (some "X") = none :=
  ⟨rfl, rfl,
    (c10_falsy_college_absent emptyCollegeStore "u" (some "X") { college := some "" } rfl).2.1 rfl⟩

end ProjectFeed
